import Mathlib

/-!
Verification of the session-aware CLI client, cursor/context formatter and
debounced query dispatcher of the obsidian_claude_code_copilot plugin.
The TypeScript sources are shallowly embedded below: pure functions become
Lean functions, the external process is an oracle parameter, machine words
are `Nat` with explicit `% 2 ^ 32`, and JavaScript strings are modelled as
Lean `String`/`List Char` (character-indexed).
-/

/-! ### Generic JavaScript string/array helpers -/

/-- Model of `b.startsWith-like prefix test` on character lists. -/
def charPrefix : List Char → List Char → Bool
  | _, [] => true
  | [], _ :: _ => false
  | a :: as, b :: bs => a = b && charPrefix as bs

/-- Model of JavaScript `haystack.includes(needle)` (substring containment). -/
def containsSub (haystack needle : String) : Bool :=
  go haystack.toList needle.toList
where
  go : List Char → List Char → Bool
    | [], n => charPrefix [] n
    | h :: t, n => charPrefix (h :: t) n || go t n

/-- Model of JavaScript `String.prototype.trim` (leading and trailing
whitespace removed; ASCII whitespace suffices for the strings involved). -/
def jsTrim (s : String) : String :=
  String.mk (((s.toList.dropWhile Char.isWhitespace).reverse.dropWhile
    Char.isWhitespace).reverse)

/-! ### MD5 (as used by `crypto.createHash("md5")` in `getSessionId`) -/

/-- Per-round shift amounts of MD5 (RFC 1321). -/
def md5S : List Nat :=
  [7, 12, 17, 22, 7, 12, 17, 22, 7, 12, 17, 22, 7, 12, 17, 22,
   5, 9, 14, 20, 5, 9, 14, 20, 5, 9, 14, 20, 5, 9, 14, 20,
   4, 11, 16, 23, 4, 11, 16, 23, 4, 11, 16, 23, 4, 11, 16, 23,
   6, 10, 15, 21, 6, 10, 15, 21, 6, 10, 15, 21, 6, 10, 15, 21]

/-- Sine-derived additive constants of MD5 (RFC 1321). -/
def md5K : List Nat :=
  [0xd76aa478, 0xe8c7b756, 0x242070db, 0xc1bdceee,
   0xf57c0faf, 0x4787c62a, 0xa8304613, 0xfd469501,
   0x698098d8, 0x8b44f7af, 0xffff5bb1, 0x895cd7be,
   0x6b901122, 0xfd987193, 0xa679438e, 0x49b40821,
   0xf61e2562, 0xc040b340, 0x265e5a51, 0xe9b6c7aa,
   0xd62f105d, 0x02441453, 0xd8a1e681, 0xe7d3fbc8,
   0x21e1cde6, 0xc33707d6, 0xf4d50d87, 0x455a14ed,
   0xa9e3e905, 0xfcefa3f8, 0x676f02d9, 0x8d2a4c8a,
   0xfffa3942, 0x8771f681, 0x6d9d6122, 0xfde5380c,
   0xa4beea44, 0x4bdecfa9, 0xf6bb4b60, 0xbebfbc70,
   0x289b7ec6, 0xeaa127fa, 0xd4ef3085, 0x04881d05,
   0xd9d4d039, 0xe6db99e5, 0x1fa27cf8, 0xc4ac5665,
   0xf4292244, 0x432aff97, 0xab9423a7, 0xfc93a039,
   0x655b59c3, 0x8f0ccc92, 0xffeff47d, 0x85845dd1,
   0x6fa87e4f, 0xfe2ce6e0, 0xa3014314, 0x4e0811a1,
   0xf7537e82, 0xbd3af235, 0x2ad7d2bb, 0xeb86d391]

/-- 32-bit mask. -/
def mask32 : Nat := 4294967295

/-- 32-bit left rotation (input already reduced mod `2 ^ 32`). -/
def rotl32 (x s : Nat) : Nat := ((x <<< s) ||| (x >>> (32 - s))) % 2 ^ 32

/-- MD5 round functions F, G, H, I selected by round index. -/
def md5F (i b c d : Nat) : Nat :=
  if i < 16 then (b &&& c) ||| ((mask32 ^^^ b) &&& d)
  else if i < 32 then (d &&& b) ||| ((mask32 ^^^ d) &&& c)
  else if i < 48 then b ^^^ c ^^^ d
  else c ^^^ (b ||| (mask32 ^^^ d))

/-- MD5 message-word index schedule. -/
def md5G (i : Nat) : Nat :=
  if i < 16 then i
  else if i < 32 then (5 * i + 1) % 16
  else if i < 48 then (3 * i + 5) % 16
  else (7 * i) % 16

/-- One of the 64 MD5 rounds, acting on the register quadruple. -/
def md5Round (M : List Nat) (st : Nat × Nat × Nat × Nat) (i : Nat) :
    Nat × Nat × Nat × Nat :=
  let a := st.1
  let b := st.2.1
  let c := st.2.2.1
  let d := st.2.2.2
  let f := md5F i b c d
  let g := md5G i
  let sum := (a + f + md5K.getD i 0 + M.getD g 0) % 2 ^ 32
  let b' := (b + rotl32 sum (md5S.getD i 0)) % 2 ^ 32
  (d, b', b, c)

/-- Decode a 64-byte chunk into sixteen little-endian 32-bit words. -/
def chunkWords (chunk : List Nat) : List Nat :=
  (List.range 16).map fun j =>
    chunk.getD (4 * j) 0 + 256 * chunk.getD (4 * j + 1) 0 +
      65536 * chunk.getD (4 * j + 2) 0 + 16777216 * chunk.getD (4 * j + 3) 0

/-- Process one 64-byte chunk, updating the running MD5 state. -/
def md5Chunk (st : Nat × Nat × Nat × Nat) (chunk : List Nat) :
    Nat × Nat × Nat × Nat :=
  let M := chunkWords chunk
  let r := (List.range 64).foldl (md5Round M) st
  ((st.1 + r.1) % 2 ^ 32, (st.2.1 + r.2.1) % 2 ^ 32,
   (st.2.2.1 + r.2.2.1) % 2 ^ 32, (st.2.2.2 + r.2.2.2) % 2 ^ 32)

/-- Split a byte list into 64-byte chunks. -/
def chunkify (l : List Nat) : List (List Nat) :=
  if h : l = [] then []
  else
    have : l.length - 64 < l.length := by
      have : 0 < l.length := List.length_pos.mpr h
      omega
    l.take 64 :: chunkify (l.drop 64)
termination_by l.length
decreasing_by simpa using this

/-- The 64-bit little-endian encoding of the message bit length. -/
def lenBytes (bitLen : Nat) : List Nat :=
  (List.range 8).map fun i => bitLen / 256 ^ i % 256

/-- MD5 padding for a message of `len` bytes. -/
def md5Pad (len : Nat) : List Nat :=
  [0x80] ++ List.replicate ((64 + 56 - (len + 1) % 64) % 64) 0 ++
    lenBytes (8 * len)

/-- UTF-8 bytes of a string (what `hash.update(string)` consumes). -/
def strToBytes (s : String) : List Nat :=
  s.toUTF8.toList.map (fun b => b.toNat)

/-- Little-endian byte decomposition of a 32-bit word. -/
def wordToLEBytes (w : Nat) : List Nat :=
  [w % 256, w / 256 % 256, w / 65536 % 256, w / 16777216 % 256]

/-- The 16-byte MD5 digest of a string. -/
def md5Bytes (s : String) : List Nat :=
  let msg := strToBytes s
  let padded := msg ++ md5Pad msg.length
  let st := (chunkify padded).foldl md5Chunk
    (0x67452301, 0xefcdab89, 0x98badcfe, 0x10325476)
  wordToLEBytes st.1 ++ wordToLEBytes st.2.1 ++ wordToLEBytes st.2.2.1 ++
    wordToLEBytes st.2.2.2

/-- Lowercase hexadecimal digit. -/
def hexChar (n : Nat) : Char :=
  if n < 10 then Char.ofNat (48 + n) else Char.ofNat (87 + n)

/-- Lowercase hexadecimal rendering of a byte list. -/
def bytesToHex (bs : List Nat) : String :=
  String.mk ((bs.map fun b => [hexChar (b / 16), hexChar (b % 16)]).flatten)

/-- `crypto.createHash("md5").update(s).digest("hex")`. -/
def md5Hex (s : String) : String := bytesToHex (md5Bytes s)

/-- Model of JavaScript `s.slice(a, b)` on strings, for `0 <= a <= b`. -/
def strSlice (s : String) (a b : Nat) : String :=
  String.mk ((s.toList.drop a).take (b - a))

/-- `getSessionId` from `src/services/claudeClient.ts`: the MD5 hex digest of
`"obsidian-copilot:" ++ vaultPath` formatted as a UUID (8-4-4-4-12). -/
def getSessionId (vaultPath : String) : String :=
  let hash := md5Hex ("obsidian-copilot:" ++ vaultPath)
  strSlice hash 0 8 ++ "-" ++ strSlice hash 8 12 ++ "-" ++
    strSlice hash 12 16 ++ "-" ++ strSlice hash 16 20 ++ "-" ++
    strSlice hash 20 32

/-- The same UUID formatting applied to an arbitrary 16-byte digest; used to
state that a session id is determined by 128 bits. -/
def uuidFormat (bs : List Nat) : String :=
  let hash := bytesToHex bs
  strSlice hash 0 8 ++ "-" ++ strSlice hash 8 12 ++ "-" ++
    strSlice hash 12 16 ++ "-" ++ strSlice hash 16 20 ++ "-" ++
    strSlice hash 20 32

/-! ### ClaudeClient (`src/services/claudeClient.ts`)

The external process is abstracted as an oracle
`run : List String → String → Except String String` mapping the argument
list and the prompt written to standard input to either the resolved
transcript or the rejection's error message (`runClaude` always rejects
with an `Error`, so an error is identified with its message string).
The `activeSessions` set is modelled as a duplicate-free `List String`
threaded explicitly; `getFeedback` additionally returns the list of
`runClaude` invocations it performed, in order, for stating retry counts. -/

/-- `ClaudeClient.allowedTools`. -/
def allowedTools : String := "Read,Grep,Glob,LS"

/-- The argument list built at the top of `getFeedback`:
`[isNewSession ? "--session-id" : "--resume", sessionId, "-p",
"--allowedTools", allowedTools]`. -/
def buildArgs (isNew : Bool) (sessionId : String) : List String :=
  [if isNew then "--session-id" else "--resume", sessionId, "-p",
   "--allowedTools", allowedTools]

/-- `this.activeSessions.add(sessionId)` (JavaScript `Set` semantics). -/
def addSession (sessions : List String) (sessionId : String) : List String :=
  if sessions.contains sessionId then sessions else sessions ++ [sessionId]

/-- `ClaudeClient.isNewSession`. -/
def isNewSession (vaultPath : String) (sessions : List String) : Bool :=
  !(sessions.contains (getSessionId vaultPath))

/-- `ClaudeClient.getFeedback`. Returns the result, the updated
`activeSessions` registry, and the ordered list of `runClaude` invocations
(argument list and prompt) performed during the call. -/
def getFeedback (vaultPath : String) (sessions : List String)
    (run : List String → String → Except String String) (prompt : String) :
    Except String String × List String × List (List String × String) :=
  let sessionId := getSessionId vaultPath
  let isNew := !(sessions.contains sessionId)
  let args := buildArgs isNew sessionId
  match run args prompt with
  | Except.ok result => (Except.ok result, addSession sessions sessionId,
      [(args, prompt)])
  | Except.error e =>
      if isNew && containsSub e "already in use" then
        let sessions' := addSession sessions sessionId
        let resumeArgs := ["--resume", sessionId, "-p", "--allowedTools",
          allowedTools]
        (run resumeArgs prompt, sessions', [(args, prompt),
          (resumeArgs, prompt)])
      else
        (Except.error e, sessions, [(args, prompt)])

/-- The `child.on("close", ...)` handler of `runClaude`: on exit code 0
resolve with `stdout.trim() || "No response from Claude."`, otherwise reject
with `stderr || "Claude exited with code " + code`. -/
def closeHandler (code : Int) (stdout stderr : String) :
    Except String String :=
  if code = 0 then
    Except.ok (if jsTrim stdout = "" then "No response from Claude."
      else jsTrim stdout)
  else
    Except.error (if stderr = "" then "Claude exited with code " ++
      toString code else stderr)

/-- The `child.on("error", ...)` handler of `runClaude`: an `ENOENT` launch
failure is replaced by the install/PATH guidance message, any other launch
error is rejected unchanged (identified by its message). -/
def spawnErrorMessage (errCode : Option String) (errMsg : String) : String :=
  if errCode = some "ENOENT" then
    "Claude CLI not found. Please install Claude Code and ensure \"claude\" is in your PATH."
  else errMsg

/-! ### Cursor/context formatter (`src/utils/cursor.ts`) -/

/-- `insertCursorMarker` from `src/utils/cursor.ts`: out-of-range positions
return the content unchanged, otherwise
`content.substring(0, position) + "<|cursor|>" + content.substring(position)`. -/
def insertCursorMarker (content : String) (position : Int) : String :=
  if position < 0 ∨ position > (content.length : Int) then content
  else
    String.mk (content.toList.take position.toNat) ++ "<|cursor|>" ++
      String.mk (content.toList.drop position.toNat)

/-- Model of JavaScript `s.split("\n")` on character lists: the chunks
between newline characters (one more chunk than there are newlines). -/
def splitNl : List Char → List (List Char)
  | [] => [[]]
  | c :: cs =>
      if c = '\n' then [] :: splitNl cs
      else
        match splitNl cs with
        | [] => [[c]]
        | h :: t => (c :: h) :: t

/-- Model of `content.substring(0, position)` (JavaScript clamps the end
index into `[0, content.length]`). -/
def substringToPos (content : String) (position : Int) : List Char :=
  content.toList.take position.toNat

/-- `getCursorLineNumber` from `src/utils/cursor.ts`:
`content.substring(0, position).split("\n").length - 1`. -/
def getCursorLineNumber (content : String) (position : Int) : Nat :=
  (splitNl (substringToPos content position)).length - 1

/-- Model of JavaScript `Array.prototype.slice(start, end)` with negative
indices counted from the end and both indices clamped into `[0, length]`:
the elements from the resolved start index (inclusive) to the resolved end
index (exclusive). -/
def jsSlice {α : Type} (l : List α) (start endIdx : Int) : List α :=
  (l.take (if endIdx < 0 then max ((l.length : Int) + endIdx) 0
    else min endIdx (l.length : Int)).toNat).drop
    (if start < 0 then max ((l.length : Int) + start) 0
    else min start (l.length : Int)).toNat

/-- The start line computed in `getContextLines`:
`Math.max(0, cursorLine - linesBefore)`. -/
def contextStart (cursorLine linesBefore : Int) : Int :=
  max 0 (cursorLine - linesBefore)

/-- The numbered lines produced by `getContextLines` before joining:
`lines.slice(startLine, endLine + 1).map((line, i) =>
  startLine + i + 1 + ": " + line)`. -/
def contextEntries (lines : List String) (cursorLine linesBefore : Int) :
    List String :=
  (jsSlice lines (contextStart cursorLine linesBefore)
    (cursorLine + 1)).mapIdx fun i line =>
      toString (contextStart cursorLine linesBefore + (i : Int) + 1) ++
        ": " ++ line

/-- `getContextLines` from `src/utils/cursor.ts`. -/
def getContextLines (lines : List String) (cursorLine linesBefore : Int) :
    String :=
  String.intercalate "\n" (contextEntries lines cursorLine linesBefore)

/-! ### Debounced query dispatcher (`src/components/CopilotApp.tsx`) -/

/-- The `QueryState` discriminated union of `src/types/copilotState.ts`
(`Date` timestamps modelled as `Nat`). -/
inductive QueryState where
  | idle : QueryState
  | querying : QueryState
  | success (feedback : String) : QueryState
  | error (message : String) (occurredAt : Nat) : QueryState
deriving DecidableEq

/-- The completion of the debounced query callback in `CopilotApp.tsx`: after
`await getFeedback` it runs `setQueryState({status: "success", feedback})`,
and in the catch branch `setQueryState({status: "error", ...})` — in both
cases replacing the previous state `prev` unconditionally (no check that
`prev` is still `querying`). -/
def completeQuery (prev : QueryState) (outcome : Except String String)
    (now : Nat) : QueryState :=
  match prev, outcome with
  | _, Except.ok feedback => QueryState.success feedback
  | _, Except.error msg => QueryState.error msg now

/-- The state part of `cancelPendingQueries` in `CopilotApp.tsx`: if the
status is `querying`, reset to `idle`; otherwise leave the state alone (the
timer cancellation has no `QueryState` effect). -/
def cancelQueryState (s : QueryState) : QueryState :=
  match s with
  | QueryState.querying => QueryState.idle
  | s => s

/-- Modelled from the spec: "return … the full standard-output text (after
trimming trailing whitespace)" — a trim that removes trailing whitespace
only, for comparison with the code's two-sided `trim()`. -/
def trimTrailingOnly (s : String) : String :=
  String.mk ((s.toList.reverse.dropWhile Char.isWhitespace).reverse)

/-! ### Helper lemmas -/

theorem splitNl_ne_nil (l : List Char) : splitNl l ≠ [] := by
  cases l with
  | nil => simp [splitNl]
  | cons c cs =>
    by_cases hc : c = '\n'
    · simp [splitNl, hc]
    · cases hsp : splitNl cs with
      | nil => simp [splitNl, hc, hsp]
      | cons h t => simp [splitNl, hc, hsp]

theorem splitNl_length (l : List Char) :
    (splitNl l).length = l.count '\n' + 1 := by
  induction l with
  | nil => simp [splitNl]
  | cons c cs ih =>
    by_cases hc : c = '\n'
    · subst hc
      simp [splitNl, List.count_cons, ih]
    · cases hsp : splitNl cs with
      | nil => exact absurd hsp (splitNl_ne_nil cs)
      | cons h t =>
        have : (h :: t).length = cs.count '\n' + 1 := by rw [← hsp]; exact ih
        simp only [splitNl, hc, if_false, hsp, List.length_cons] at this ⊢
        simp [List.count_cons, hc, this]

theorem contains_addSession_self (sessions : List String) (sid : String) :
    (addSession sessions sid).contains sid = true := by
  unfold addSession
  split
  next h => exact h
  next h =>
    simp only [List.contains, List.elem_eq_mem, decide_eq_true_eq]
    exact List.mem_append_right _ (List.mem_singleton.mpr rfl)

theorem contains_addSession_mono (sessions : List String) (sid x : String)
    (h : sessions.contains sid = true) :
    (addSession sessions x).contains sid = true := by
  unfold addSession
  split
  next hx => exact h
  next hx =>
    simp only [List.contains, List.elem_eq_mem, decide_eq_true_eq] at h ⊢
    exact List.mem_append_left _ h

theorem isNewSession_addSession_self (v : String)
    (sessions : List String) :
    isNewSession v (addSession sessions (getSessionId v)) = false := by
  unfold isNewSession
  rw [contains_addSession_self, Bool.not_true]

theorem buildArgs_true (sid : String) :
    buildArgs true sid =
      ["--session-id", sid, "-p", "--allowedTools", allowedTools] := rfl

theorem buildArgs_false (sid : String) :
    buildArgs false sid =
      ["--resume", sid, "-p", "--allowedTools", allowedTools] := rfl

/-- `getFeedback` when the first `runClaude` resolves. -/
theorem getFeedback_ok_eq (v prompt r : String) (sessions : List String)
    (run : List String → String → Except String String)
    (hOk : run (buildArgs (!(sessions.contains (getSessionId v)))
      (getSessionId v)) prompt = Except.ok r) :
    getFeedback v sessions run prompt =
      (Except.ok r, addSession sessions (getSessionId v),
       [(buildArgs (!(sessions.contains (getSessionId v))) (getSessionId v),
         prompt)]) := by
  unfold getFeedback
  simp only [hOk]

/-- `getFeedback` when the first `runClaude` rejects on a new-session
attempt with a message containing `"already in use"`. -/
theorem getFeedback_conflict_eq (v prompt e : String)
    (sessions : List String)
    (run : List String → String → Except String String)
    (hNew : sessions.contains (getSessionId v) = false)
    (hFail : run (buildArgs true (getSessionId v)) prompt = Except.error e)
    (hConf : containsSub e "already in use" = true) :
    getFeedback v sessions run prompt =
      (run (buildArgs false (getSessionId v)) prompt,
       addSession sessions (getSessionId v),
       [(buildArgs true (getSessionId v), prompt),
        (buildArgs false (getSessionId v), prompt)]) := by
  unfold getFeedback
  simp only [hNew, Bool.not_false, hFail, hConf, Bool.and_self, if_true,
    buildArgs_false]

/-- `getFeedback` when the first `runClaude` rejects and the conflict
condition does not hold. -/
theorem getFeedback_error_eq (v prompt e : String) (sessions : List String)
    (run : List String → String → Except String String)
    (hFail : run (buildArgs (!(sessions.contains (getSessionId v)))
      (getSessionId v)) prompt = Except.error e)
    (hcond : ((!(sessions.contains (getSessionId v))) &&
      containsSub e "already in use") = false) :
    getFeedback v sessions run prompt =
      (Except.error e, sessions,
       [(buildArgs (!(sessions.contains (getSessionId v))) (getSessionId v),
         prompt)]) := by
  unfold getFeedback
  simp only [hFail, hcond, Bool.false_eq_true, if_false]

/-! ### Claim theorems -/

/-- C7: for every content string and position `p` with
`0 ≤ p ≤ length content`, `insertCursorMarker` inserts the `<|cursor|>`
marker exactly at `p` and preserves all other characters
(`output = content[0..p) ++ marker ++ content[p..)`); for `p` outside that
range the output is the unchanged input and no error is raised. -/
theorem insertCursorMarker_correct (content : String) (position : Int) :
    (0 ≤ position → position ≤ (content.length : Int) →
      (insertCursorMarker content position).toList =
        content.toList.take position.toNat ++ "<|cursor|>".toList ++
          content.toList.drop position.toNat) ∧
    (position < 0 ∨ position > (content.length : Int) →
      insertCursorMarker content position = content) := by
  constructor
  · intro h0 hlen
    have hcond : ¬(position < 0 ∨ position > (content.length : Int)) := by
      omega
    simp [insertCursorMarker, hcond, String.toList]
  · intro h
    simp [insertCursorMarker, h]

/-- Witness for C7 at `content = "ab"`, in-range `p = 1` and
out-of-range `p = 5`. -/
theorem insertCursorMarker_correct_witness :
    (0 : Int) ≤ 1 ∧ (1 : Int) ≤ (("ab" : String).length : Int) ∧
    (insertCursorMarker "ab" 1).toList =
      ("ab" : String).toList.take (1 : Int).toNat ++ "<|cursor|>".toList ++
        ("ab" : String).toList.drop (1 : Int).toNat ∧
    insertCursorMarker "ab" 5 = "ab" :=
  ⟨by decide, by decide,
   (insertCursorMarker_correct "ab" 1).1 (by decide) (by decide),
   (insertCursorMarker_correct "ab" 5).2 (by decide)⟩

/-- C9: `getCursorLineNumber` returns the 0-based line index of the
position: whenever the prefix of the content strictly before the position
contains exactly `k` line-break characters (i.e. the position lies after the
`k`-th line break and before the `(k+1)`-th), the result is `k`. -/
theorem getCursorLineNumber_counts_newlines (content : String)
    (position : Int) (k : Nat)
    (h : (content.toList.take position.toNat).count '\n' = k) :
    getCursorLineNumber content position = k := by
  unfold getCursorLineNumber substringToPos
  rw [splitNl_length, h]
  omega

/-- Witness for C9 at `content = "a\nb\nc"`, `position = 3` (on the second
line, after the first line break), `k = 1`. -/
theorem getCursorLineNumber_counts_newlines_witness :
    (("a\nb\nc" : String).toList.take (3 : Int).toNat).count '\n' = 1 ∧
    getCursorLineNumber "a\nb\nc" 3 = 1 :=
  ⟨by decide, getCursorLineNumber_counts_newlines "a\nb\nc" 3 1 (by decide)⟩

/-- C3 counterexample: after `cancelPendingQueries` resets a `querying`
state to `idle`, a stale process result is *not* dropped — the completion
callback still overwrites the state (here with `success`), refuting "the
completion callback never overwrites a state that is no longer the
`querying` state". -/
theorem completeQuery_overwrites_after_cancel :
    cancelQueryState QueryState.querying = QueryState.idle ∧
    completeQuery (cancelQueryState QueryState.querying)
        (Except.ok "stale feedback") 0 =
      QueryState.success "stale feedback" ∧
    completeQuery (cancelQueryState QueryState.querying)
        (Except.ok "stale feedback") 0 ≠ QueryState.idle := by
  refine ⟨rfl, rfl, ?_⟩
  decide

/-- C3 amended: the completion callback applies the process result
unconditionally — it sets the state to `success`/`error` according to the
outcome regardless of the state found at resolution time (no state-tag
check), so a result resolving after cancellation or after a newer
transition does overwrite that state rather than being dropped. -/
theorem completeQuery_ignores_previous_state (prev prev' : QueryState)
    (outcome : Except String String) (now : Nat) :
    completeQuery prev outcome now = completeQuery prev' outcome now ∧
    (∀ fb, completeQuery prev (Except.ok fb) now = QueryState.success fb) ∧
    (∀ m, completeQuery prev (Except.error m) now =
      QueryState.error m now) := by
  refine ⟨?_, fun fb => rfl, fun m => rfl⟩
  cases outcome <;> rfl

/-- C4 counterexample: on a clean exit the code returns
`stdout.trim()`, which removes *leading* whitespace as well, so for
`stdout = " hi"` the returned text `"hi"` differs from the claim's
trailing-whitespace-only trim `" hi"`. -/
theorem closeHandler_trims_leading_counterexample :
    closeHandler 0 " hi" "" = Except.ok "hi" ∧
    trimTrailingOnly " hi" = " hi" ∧
    ("hi" : String) ≠ " hi" := by
  refine ⟨rfl, rfl, ?_⟩
  decide

/-- C4 amended: on clean termination (zero exit status) the return value is
the standard output trimmed of leading *and* trailing whitespace, or the
literal `"No response from Claude."` when the trimmed output is empty; and
whenever `getFeedback` returns successfully the session id has been
recorded in the `activeSessions` registry. -/
theorem closeHandler_clean_exit (stdout stderr : String) :
    (jsTrim stdout ≠ "" →
      closeHandler 0 stdout stderr = Except.ok (jsTrim stdout)) ∧
    (jsTrim stdout = "" →
      closeHandler 0 stdout stderr = Except.ok "No response from Claude.") ∧
    (∀ (v : String) (sessions : List String)
      (run : List String → String → Except String String)
      (prompt r : String),
      (getFeedback v sessions run prompt).1 = Except.ok r →
      ((getFeedback v sessions run prompt).2.1.contains (getSessionId v)) =
        true) := by
  refine ⟨fun h => by simp [closeHandler, h], fun h => by
    simp [closeHandler, h], ?_⟩
  intro v sessions run prompt r h
  cases hrun : run
      (buildArgs (!(sessions.contains (getSessionId v))) (getSessionId v))
      prompt with
  | ok res =>
      rw [getFeedback_ok_eq v prompt res sessions run hrun]
      exact contains_addSession_self sessions (getSessionId v)
  | error e =>
      by_cases hc : ((!(sessions.contains (getSessionId v))) &&
          containsSub e "already in use") = true
      · rw [Bool.and_eq_true] at hc
        obtain ⟨h1, hConf⟩ := hc
        have hNew : sessions.contains (getSessionId v) = false := by
          simpa using h1
        rw [hNew, Bool.not_false] at hrun
        rw [getFeedback_conflict_eq v prompt e sessions run hNew hrun hConf]
        exact contains_addSession_self sessions (getSessionId v)
      · rw [getFeedback_error_eq v prompt e sessions run hrun
          (Bool.eq_false_iff.mpr hc)] at h
        exact Except.noConfusion h

/-- Witness for C4 amended at a nonempty and an all-whitespace stdout, and
a concrete successful `getFeedback`. -/
theorem closeHandler_clean_exit_witness :
    closeHandler 0 " out " "ignored" = Except.ok "out" ∧
    closeHandler 0 "  " "ignored" = Except.ok "No response from Claude." ∧
    ((getFeedback "/vault" [] (fun _ _ => Except.ok "r") "p").2.1.contains
      (getSessionId "/vault")) = true :=
  ⟨(closeHandler_clean_exit " out " "ignored").1 (by decide),
   (closeHandler_clean_exit "  " "ignored").2.1 rfl,
   (closeHandler_clean_exit "" "").2.2 "/vault" [] (fun _ _ => Except.ok "r")
     "p" "r" rfl⟩

/-- C5: the launch failure with error code `ENOENT` (executable not found)
is rejected with the install/PATH guidance message (the `ToolNotInstalled`
kind), while any other, non-zero, exit is rejected with the captured
standard-error text, or with `"Claude exited with code <code>"` when stderr
is empty (the `ToolFailed` kind). -/
theorem runClaude_failure_classification (code : Int)
    (stdout stderr errMsg : String) (hcode : code ≠ 0) :
    spawnErrorMessage (some "ENOENT") errMsg =
      "Claude CLI not found. Please install Claude Code and ensure \"claude\" is in your PATH." ∧
    containsSub (spawnErrorMessage (some "ENOENT") errMsg) "PATH" = true ∧
    (stderr ≠ "" → closeHandler code stdout stderr = Except.error stderr) ∧
    (stderr = "" → closeHandler code stdout stderr =
      Except.error ("Claude exited with code " ++ toString code)) := by
  refine ⟨rfl, ?_, fun h => by simp [closeHandler, hcode, h], fun h => by
    simp [closeHandler, hcode, h]⟩
  show containsSub
    "Claude CLI not found. Please install Claude Code and ensure \"claude\" is in your PATH."
    "PATH" = true
  decide

/-- Witness for C5 at exit code 1 with nonempty and empty stderr. -/
theorem runClaude_failure_classification_witness :
    closeHandler 1 "" "boom" = Except.error "boom" ∧
    closeHandler 1 "" "" =
      Except.error ("Claude exited with code " ++ toString (1 : Int)) :=
  ⟨(runClaude_failure_classification 1 "" "boom" "m" (by decide)).2.2.1
     (by decide),
   (runClaude_failure_classification 1 "" "" "m" (by decide)).2.2.2 rfl⟩

/-- C1: when the initial invocation is a new-session attempt (session id
absent from the registry) and fails with a message containing
`"already in use"`, `getFeedback` marks the session id as known, performs
exactly one retry in resume mode with the identical prompt (the invocation
trace has exactly the new-session call followed by the resume call), and
its result is exactly the retry's result (returned on success, surfaced on
failure); when the conflict condition does not hold the single failing
invocation's error is surfaced with no retry (trace of length one). -/
theorem getFeedback_conflict_retry (v prompt e : String)
    (sessions : List String)
    (run : List String → String → Except String String)
    (hFail : run (buildArgs (isNewSession v sessions) (getSessionId v))
      prompt = Except.error e) :
    (isNewSession v sessions = true →
      containsSub e "already in use" = true →
      getFeedback v sessions run prompt =
        (run (buildArgs false (getSessionId v)) prompt,
         addSession sessions (getSessionId v),
         [(buildArgs true (getSessionId v), prompt),
          (buildArgs false (getSessionId v), prompt)])) ∧
    (isNewSession v sessions = false ∨
        containsSub e "already in use" = false →
      getFeedback v sessions run prompt =
        (Except.error e, sessions,
         [(buildArgs (isNewSession v sessions) (getSessionId v),
           prompt)])) := by
  constructor
  · intro hNew hConf
    have hContains : sessions.contains (getSessionId v) = false := by
      unfold isNewSession at hNew
      simpa using hNew
    rw [isNewSession, hContains, Bool.not_false] at hFail
    exact getFeedback_conflict_eq v prompt e sessions run hContains hFail
      hConf
  · intro hcase
    rw [isNewSession] at hFail ⊢
    refine getFeedback_error_eq v prompt e sessions run hFail ?_
    rcases hcase with hOld | hNoConf
    · have hContains : sessions.contains (getSessionId v) = true := by
        unfold isNewSession at hOld
        simpa using hOld
      rw [hContains]
      rfl
    · rw [hNoConf, Bool.and_false]

/-- Witness for C1: a concrete oracle failing the new-session attempt with
a conflict message and resolving the resume retry. -/
theorem getFeedback_conflict_retry_witness :
    isNewSession "/vault" [] = true ∧
    getFeedback "/vault" []
        (fun args _ => if args.contains "--session-id" then
          Except.error "Session 1 is already in use." else Except.ok "out")
        "p" =
      ((fun (args : List String) (_ : String) =>
          if args.contains "--session-id" then
            Except.error "Session 1 is already in use." else Except.ok "out")
        (buildArgs false (getSessionId "/vault")) "p",
       addSession [] (getSessionId "/vault"),
       [(buildArgs true (getSessionId "/vault"), "p"),
        (buildArgs false (getSessionId "/vault"), "p")]) := by
  constructor
  · rfl
  · exact (getFeedback_conflict_retry "/vault" "p"
      "Session 1 is already in use." []
      (fun args _ => if args.contains "--session-id" then
        Except.error "Session 1 is already in use." else Except.ok "out")
      (by rfl)).1 rfl (by decide)

/-- C2: for a freshly constructed client (empty registry) `isNewSession` is
true; after any successful `getFeedback` for that workspace it is false;
once false it stays false across every further `getFeedback` call; and in
general `isNewSession` is true iff the derived session id is absent from
the registry. -/
theorem isNewSession_lifecycle (v : String) :
    isNewSession v [] = true ∧
    (∀ (sessions : List String)
      (run : List String → String → Except String String) (prompt r : String),
      (getFeedback v sessions run prompt).1 = Except.ok r →
      isNewSession v (getFeedback v sessions run prompt).2.1 = false) ∧
    (∀ (sessions : List String)
      (run : List String → String → Except String String) (prompt : String),
      isNewSession v sessions = false →
      isNewSession v (getFeedback v sessions run prompt).2.1 = false) ∧
    (∀ sessions : List String,
      isNewSession v sessions = true ↔
        sessions.contains (getSessionId v) = false) := by
  refine ⟨rfl, ?_, ?_, ?_⟩
  · intro sessions run prompt r h
    cases hrun : run
        (buildArgs (!(sessions.contains (getSessionId v))) (getSessionId v))
        prompt with
    | ok res =>
        rw [getFeedback_ok_eq v prompt res sessions run hrun]
        exact isNewSession_addSession_self v sessions
    | error e =>
        by_cases hc : ((!(sessions.contains (getSessionId v))) &&
            containsSub e "already in use") = true
        · rw [Bool.and_eq_true] at hc
          obtain ⟨h1, hConf⟩ := hc
          have hNew : sessions.contains (getSessionId v) = false := by
            simpa using h1
          rw [hNew, Bool.not_false] at hrun
          rw [getFeedback_conflict_eq v prompt e sessions run hNew hrun
            hConf]
          exact isNewSession_addSession_self v sessions
        · rw [getFeedback_error_eq v prompt e sessions run hrun
            (Bool.eq_false_iff.mpr hc)] at h
          exact Except.noConfusion h
  · intro sessions run prompt hOld
    have hContains : sessions.contains (getSessionId v) = true := by
      unfold isNewSession at hOld
      simpa using hOld
    cases hrun : run
        (buildArgs (!(sessions.contains (getSessionId v))) (getSessionId v))
        prompt with
    | ok res =>
        rw [getFeedback_ok_eq v prompt res sessions run hrun]
        exact isNewSession_addSession_self v sessions
    | error e =>
        rw [getFeedback_error_eq v prompt e sessions run hrun
          (by rw [hContains]; rfl)]
        exact hOld
  · intro sessions
    unfold isNewSession
    constructor
    · intro h
      simpa using h
    · intro h
      rw [h]
      rfl

/-- Witness for C2: fresh registry true, false after a successful call,
still false after a further call. -/
theorem isNewSession_lifecycle_witness :
    isNewSession "/vault" [] = true ∧
    isNewSession "/vault"
      (getFeedback "/vault" [] (fun _ _ => Except.ok "out") "p").2.1 =
        false ∧
    isNewSession "/vault"
      (getFeedback "/vault"
        (getFeedback "/vault" [] (fun _ _ => Except.ok "out") "p").2.1
        (fun _ _ => Except.ok "again") "q").2.1 = false := by
  refine ⟨(isNewSession_lifecycle "/vault").1, ?_, ?_⟩
  · exact (isNewSession_lifecycle "/vault").2.1 []
      (fun _ _ => Except.ok "out") "p" "out" rfl
  · refine (isNewSession_lifecycle "/vault").2.2.1
      (getFeedback "/vault" [] (fun _ _ => Except.ok "out") "p").2.1
      (fun _ _ => Except.ok "again") "q" ?_
    exact (isNewSession_lifecycle "/vault").2.1 []
      (fun _ _ => Except.ok "out") "p" "out" rfl

/-- C10: when the conflict-recovery path is taken and the resume retry also
fails, the retry's failure is surfaced, yet the session id has already been
recorded in the registry (no rollback), so `isNewSession` is false
afterwards and every subsequent `getFeedback` for the workspace issues its
first invocation in resume mode (`--resume`). -/
theorem getFeedback_conflict_no_rollback (v prompt e₁ e₂ : String)
    (sessions : List String)
    (run run₂ : List String → String → Except String String)
    (hNew : isNewSession v sessions = true)
    (hFail : run (buildArgs true (getSessionId v)) prompt =
      Except.error e₁)
    (hConf : containsSub e₁ "already in use" = true)
    (hRetry : run (buildArgs false (getSessionId v)) prompt =
      Except.error e₂) :
    (getFeedback v sessions run prompt).1 = Except.error e₂ ∧
    ((getFeedback v sessions run prompt).2.1.contains (getSessionId v)) =
      true ∧
    isNewSession v (getFeedback v sessions run prompt).2.1 = false ∧
    ∀ prompt₂ : String,
      (getFeedback v (getFeedback v sessions run prompt).2.1 run₂
        prompt₂).2.2.head? =
        some (buildArgs false (getSessionId v), prompt₂) := by
  have hContains : sessions.contains (getSessionId v) = false := by
    unfold isNewSession at hNew
    simpa using hNew
  have heq := getFeedback_conflict_eq v prompt e₁ sessions run hContains
    hFail hConf
  have hmem : ((getFeedback v sessions run prompt).2.1.contains
      (getSessionId v)) = true := by
    rw [heq]
    exact contains_addSession_self sessions (getSessionId v)
  refine ⟨by rw [heq]; exact hRetry, hmem, by
    unfold isNewSession; rw [hmem]; rfl, ?_⟩
  intro prompt₂
  cases hrun₂ : run₂
      (buildArgs (!((getFeedback v sessions run prompt).2.1.contains
        (getSessionId v))) (getSessionId v)) prompt₂ with
  | ok res =>
      rw [getFeedback_ok_eq v prompt₂ res _ run₂ hrun₂, hmem,
        Bool.not_true]
      rfl
  | error e =>
      rw [getFeedback_error_eq v prompt₂ e _ run₂ hrun₂
        (by rw [hmem]; rfl), hmem, Bool.not_true]
      rfl

/-- Witness for C10: an oracle for which both the new-session attempt and
the resume retry fail, followed by a second call. -/
theorem getFeedback_conflict_no_rollback_witness :
    (getFeedback "/vault" []
        (fun _ _ => Except.error "id already in use") "p").1 =
      Except.error "id already in use" ∧
    ((getFeedback "/vault" []
        (fun _ _ => Except.error "id already in use") "p").2.1.contains
      (getSessionId "/vault")) = true ∧
    isNewSession "/vault"
      (getFeedback "/vault" []
        (fun _ _ => Except.error "id already in use") "p").2.1 = false ∧
    (getFeedback "/vault"
        (getFeedback "/vault" []
          (fun _ _ => Except.error "id already in use") "p").2.1
        (fun _ _ => Except.ok "later") "q").2.2.head? =
      some (buildArgs false (getSessionId "/vault"), "q") := by
  have h := getFeedback_conflict_no_rollback "/vault" "p"
    "id already in use" "id already in use" []
    (fun _ _ => Except.error "id already in use")
    (fun _ _ => Except.ok "later") rfl rfl (by decide) rfl
  exact ⟨h.1, h.2.1, h.2.2.1, h.2.2.2 "q"⟩

/-- C6: the session id is a pure, deterministic function of the workspace
identity alone — equal identities always yield equal session ids (there is
no other input, so the value is also stable across process restarts) — and
the id is the UUID formatting of a 128-bit value (a 16-byte digest). -/
theorem getSessionId_deterministic (v₁ v₂ : String) (h : v₁ = v₂) :
    getSessionId v₁ = getSessionId v₂ ∧
    ∃ bs : List Nat, bs.length = 16 ∧ (∀ b ∈ bs, b < 256) ∧
      getSessionId v₁ = uuidFormat bs := by
  subst h
  refine ⟨rfl, md5Bytes ("obsidian-copilot:" ++ v₁), ?_, ?_, rfl⟩
  · simp [md5Bytes, wordToLEBytes]
  · intro b hb
    have hword : ∀ (w : Nat), ∀ x ∈ wordToLEBytes w, x < 256 := by
      intro w x hx
      simp only [wordToLEBytes, List.mem_cons, List.not_mem_nil,
        or_false] at hx
      rcases hx with h | h | h | h <;> subst h <;>
        exact Nat.mod_lt _ (by norm_num)
    simp only [md5Bytes, List.mem_append] at hb
    rcases hb with ((h | h) | h) | h <;> exact hword _ _ h

/-- Witness for C6 at the workspace `"/vault"`. -/
theorem getSessionId_deterministic_witness :
    getSessionId "/vault" = getSessionId "/vault" ∧
    ∃ bs : List Nat, bs.length = 16 ∧ (∀ b ∈ bs, b < 256) ∧
      getSessionId "/vault" = uuidFormat bs :=
  getSessionId_deterministic "/vault" "/vault" rfl

/-- C8 counterexample: for the empty lines list the claim's unconditional
"returns at least 1 line" fails — the slice is empty and `getContextLines`
returns the empty string with zero numbered lines. -/
theorem getContextLines_empty_counterexample :
    getContextLines [] 0 0 = "" ∧ (contextEntries [] 0 0).length = 0 := by
  constructor <;> rfl

/-- Helper for C8: every entry of the context window is the source line at
the (never negative) index `startLine + i`, prefixed with its 1-based line
number. -/
theorem contextEntries_getD (lines : List String)
    (cursorLine linesBefore : Int) (i : Nat)
    (hi : i < (contextEntries lines cursorLine linesBefore).length) :
    (contextEntries lines cursorLine linesBefore).getD i "" =
      toString (contextStart cursorLine linesBefore + (i : Int) + 1) ++
        ": " ++
        lines.getD ((contextStart cursorLine linesBefore).toNat + i) "" := by
  have hs : 0 ≤ contextStart cursorLine linesBefore := le_max_left 0 _
  have hilen : i < (jsSlice lines (contextStart cursorLine linesBefore)
      (cursorLine + 1)).length := by
    have h := hi
    unfold contextEntries at h
    rwa [List.length_mapIdx] at h
  have hslen : (jsSlice lines (contextStart cursorLine linesBefore)
      (cursorLine + 1)).length ≤ lines.length -
        (min (contextStart cursorLine linesBefore)
          (lines.length : Int)).toNat := by
    unfold jsSlice
    rw [if_neg (by omega), List.length_drop, List.length_take]
    omega
  have hS : (min (contextStart cursorLine linesBefore)
      (lines.length : Int)).toNat + i < lines.length := by omega
  have hSeq : (min (contextStart cursorLine linesBefore)
      (lines.length : Int)).toNat =
      (contextStart cursorLine linesBefore).toNat := by omega
  unfold contextEntries
  rw [List.getD_eq_getElem?_getD,
    List.getElem?_eq_getElem (by rwa [List.length_mapIdx]),
    Option.getD_some]
  have hmap := List.get_mapIdx
    (jsSlice lines (contextStart cursorLine linesBefore) (cursorLine + 1))
    (fun i line =>
      toString (contextStart cursorLine linesBefore + (i : Int) + 1) ++
        ": " ++ line) i hilen
  rw [List.get_eq_getElem, List.get_eq_getElem] at hmap
  rw [hmap]
  congr 1
  have hb2 : (contextStart cursorLine linesBefore).toNat + i <
      lines.length := by omega
  have hgetD : lines.getD ((contextStart cursorLine linesBefore).toNat + i)
      "" = lines.get ⟨(contextStart cursorLine linesBefore).toNat + i,
        hb2⟩ := by
    rw [List.getD_eq_getElem?_getD, List.getElem?_eq_getElem hb2,
      Option.getD_some, List.get_eq_getElem]
  rw [hgetD, List.get_eq_getElem]
  simp only [jsSlice, List.getElem_drop, List.getElem_take]
  congr 1
  rw [if_neg (by omega)]
  omega

/-- C8 amended: the context window never starts below line 0 and clamps to
line 0 whenever `linesBefore > cursorLine`; each returned entry is the
source line at offset `i` from the start line, prefixed with its 1-based
line number, and the entries are joined by line breaks; and the window
holds at least one line whenever `cursorLine` is a valid (in-range) line of
`lines` and `linesBefore` is nonnegative — but not for arbitrary inputs,
e.g. not when `lines` is empty. -/
theorem getContextLines_window (lines : List String)
    (cursorLine linesBefore : Int) :
    0 ≤ contextStart cursorLine linesBefore ∧
    (linesBefore > cursorLine → contextStart cursorLine linesBefore = 0) ∧
    (0 ≤ linesBefore → 0 ≤ cursorLine →
      cursorLine < (lines.length : Int) →
      1 ≤ (contextEntries lines cursorLine linesBefore).length) ∧
    (∀ i : Nat, i < (contextEntries lines cursorLine linesBefore).length →
      (contextEntries lines cursorLine linesBefore).getD i "" =
        toString (contextStart cursorLine linesBefore + (i : Int) + 1) ++
          ": " ++
          lines.getD ((contextStart cursorLine linesBefore).toNat + i)
            "") ∧
    getContextLines lines cursorLine linesBefore =
      String.intercalate "\n"
        (contextEntries lines cursorLine linesBefore) := by
  refine ⟨le_max_left 0 _, ?_, ?_, contextEntries_getD lines cursorLine
    linesBefore, rfl⟩
  · intro h
    unfold contextStart
    omega
  · intro hlb h0 hlt
    unfold contextEntries jsSlice contextStart
    simp only [List.length_mapIdx, List.length_drop, List.length_take]
    split_ifs <;> omega

/-- Witness for C8 amended: a 3-line document with the cursor on its last
line and a window larger than the document, clamped to start at line 1. -/
theorem getContextLines_window_witness :
    (0 : Int) ≤ 5 ∧ (0 : Int) ≤ 2 ∧
    (2 : Int) < ((["a", "b", "c"] : List String).length : Int) ∧
    1 ≤ (contextEntries ["a", "b", "c"] 2 5).length ∧
    (contextEntries ["a", "b", "c"] 2 5).getD 0 "" =
      toString (contextStart 2 5 + ((0 : Nat) : Int) + 1) ++ ": " ++
        (["a", "b", "c"] : List String).getD ((contextStart 2 5).toNat + 0)
          "" :=
  ⟨by decide, by decide, by decide,
   (getContextLines_window ["a", "b", "c"] 2 5).2.2.1 (by decide)
     (by decide) (by decide),
   (getContextLines_window ["a", "b", "c"] 2 5).2.2.2.1 0 (by decide)⟩
